import Mathlib

/-!
Verification of the Upload_image Azure Function and its ADLS upload helpers
(`src/Upload_image/__init__.py`, `src/Upload_image/adls_utils.py`).

Python strings are modelled as Lean `String`s, byte strings as `List Nat`,
JSON values as an inductive `Json` type.  The two external services — the
Azure Data Lake storage account and the Ollama inference endpoint — are
modelled as explicit oracles passed to the translated functions: an
oracle describing the outcome of the HTTP POST, an oracle for the
`json.loads` library parser, and a record of success/failure outcomes for
the individual storage writes.  Storage side effects are tracked as an
explicit event list so that theorems can speak about which writes were
attempted and which succeeded.
-/

set_option maxHeartbeats 1000000

namespace PazoUpload

/-- Python `s[:n]` on a string. -/
def pyTake (s : String) (n : Nat) : String := ⟨s.data.take n⟩

/-- Python `s[i:j]` on a string (used only with `i ≤ j`). -/
def pySlice (s : String) (i j : Nat) : String := ⟨(s.data.drop i).take (j - i)⟩

/-- Python `s.startswith("/")`. -/
def strStartsSlash (s : String) : Bool := decide (s.data.head? = some '/')

/-- Python `s.endswith("/")`. -/
def strEndsSlash (s : String) : Bool := decide (s.data.getLast? = some '/')

/-- One step of Python `posixpath.join` (separator `/`): a component that
starts with `/` restarts the path; otherwise it is appended, inserting a
`/` unless the accumulated path is empty or already ends with `/`. -/
def posixpathJoin2 (path b : String) : String :=
  if strStartsSlash b then b
  else if path = "" || strEndsSlash path then path ++ b
  else path ++ "/" ++ b

/-- Python `posixpath.join(x, *xs)`. -/
def posixpathJoin (x : String) (xs : List String) : String :=
  xs.foldl posixpathJoin2 x

/-- Python `str.rfind` restricted to a single character: the largest index
holding `c`, or `-1` when `c` does not occur. -/
def pyRfind (l : List Char) (c : Char) : Int :=
  match l.reverse.findIdx? (fun x => x = c) with
  | none => -1
  | some i => (l.length : Int) - 1 - (i : Int)

/-- Python `os.path.splitext` with posix rules: split at the last dot that
comes after the last `/`, except when every character of the basename up to
that dot is itself a dot (leading-dot files have no extension). -/
def splitext (p : String) : String × String :=
  let l := p.data
  let sepIndex := pyRfind l '/'
  let dotIndex := pyRfind l '.'
  if sepIndex < dotIndex then
    let nameChars := (l.take dotIndex.toNat).drop (sepIndex + 1).toNat
    if nameChars.any (fun ch => ch ≠ '.') then
      (⟨l.take dotIndex.toNat⟩, ⟨l.drop dotIndex.toNat⟩)
    else (p, "")
  else (p, "")

/-- The object path computed by `upload_json_to_adls`:
`results/{store_id}/YYYY/MM/DD/{category}_{timestamp}.json`, where the date
folders come from `timestamp[:8]`. -/
def json_result_path (category timestamp store_id : String) : String :=
  let date := pyTake timestamp 8
  let year := pyTake date 4
  let month := pySlice date 4 6
  let day := pySlice date 6 8
  let directory_path := posixpathJoin "results" [store_id, year, month, day]
  posixpathJoin2 directory_path (category ++ "_" ++ timestamp ++ ".json")

/-- The object path computed by `upload_image_to_adls`:
`images/raw/{store_id}/YYYY/MM/DD/{category}_{timestamp}{ext}` where `ext`
is `os.path.splitext(original_filename)[1]`. -/
def raw_image_path (category store_id original_filename timestamp : String) : String :=
  let date := pyTake timestamp 8
  let year := pyTake date 4
  let month := pySlice date 4 6
  let day := pySlice date 6 8
  let file_extension := (splitext original_filename).2
  let directory_path := posixpathJoin "images" ["raw", store_id, year, month, day]
  posixpathJoin2 directory_path (category ++ "_" ++ timestamp ++ file_extension)

/-- The object path computed by `upload_base64_to_adls`:
`images/base64/{store_id}/YYYY/MM/DD/{category}_{timestamp}.txt`. -/
def base64_text_path (category store_id timestamp : String) : String :=
  let date := pyTake timestamp 8
  let year := pyTake date 4
  let month := pySlice date 4 6
  let day := pySlice date 6 8
  let directory_path := posixpathJoin "images" ["base64", store_id, year, month, day]
  posixpathJoin2 directory_path (category ++ "_" ++ timestamp ++ ".txt")

example : json_result_path "dustbin" "20240115_101500" "SM-001" =
    "results/SM-001/2024/01/15/dustbin_20240115_101500.json" := by decide

example : raw_image_path "dustbin" "SM-001" "photo.jpg" "20240115_101500" =
    "images/raw/SM-001/2024/01/15/dustbin_20240115_101500.jpg" := by decide

example : base64_text_path "dustbin" "SM-001" "20240115_101500" =
    "images/base64/SM-001/2024/01/15/dustbin_20240115_101500.txt" := by decide

/-! ### Generic string/list helper lemmas for the path builders -/

lemma string_eq_empty_iff (s : String) : s = "" ↔ s.data = [] :=
  ⟨fun h => h ▸ rfl, fun h => String.ext (by simpa using h)⟩

lemma strStartsSlash_eq_false {s : String} (h : s.data.head? ≠ some '/') :
    strStartsSlash s = false := by
  simp [strStartsSlash, h]

lemma strEndsSlash_eq_false {s : String} (h : s.data.getLast? ≠ some '/') :
    strEndsSlash s = false := by
  simp [strEndsSlash, h]

lemma mem_of_getLast?_eq_some {α : Type} {l : List α} {c : α}
    (h : l.getLast? = some c) : c ∈ l := by
  obtain ⟨hne, rfl⟩ := List.mem_getLast?_eq_getLast (l := l) (x := c) h
  exact List.getLast_mem hne

/-- A path component that will neither restart the join nor swallow the
following separator: nonempty, no leading and no trailing slash. -/
def cleanComp (s : String) : Prop :=
  s.data ≠ [] ∧ s.data.head? ≠ some '/' ∧ s.data.getLast? ≠ some '/'

instance (s : String) : Decidable (cleanComp s) := by
  unfold cleanComp; infer_instance

lemma posixpathJoin2_normal (path b : String)
    (hp : path.data ≠ []) (hpl : path.data.getLast? ≠ some '/')
    (hb : b.data.head? ≠ some '/') :
    posixpathJoin2 path b = path ++ "/" ++ b := by
  unfold posixpathJoin2
  rw [strStartsSlash_eq_false hb, strEndsSlash_eq_false hpl]
  simp [string_eq_empty_iff, hp]

lemma data_join_step (p b : String) : (p ++ "/" ++ b).data = p.data ++ '/' :: b.data := by
  rw [String.data_append, String.data_append]
  simp

lemma joinStep_ne_nil (p b : String) : (p ++ "/" ++ b).data ≠ [] := by
  rw [data_join_step]; simp

lemma joinStep_getLast? (p b : String) (hb : b.data ≠ []) :
    (p ++ "/" ++ b).data.getLast? = b.data.getLast? := by
  rw [data_join_step, show p.data ++ '/' :: b.data = (p.data ++ ['/']) ++ b.data by simp]
  exact List.getLast?_append_of_ne_nil _ hb

lemma posixpathJoin_clean (l : List String) : ∀ (p : String),
    p.data ≠ [] → p.data.getLast? ≠ some '/' →
    (∀ b ∈ l, cleanComp b) →
    posixpathJoin p l = l.foldl (fun acc b => acc ++ "/" ++ b) p := by
  induction l with
  | nil => intro p _ _ _; rfl
  | cons b l ih =>
      intro p hp hpl hl
      have hb := hl b (List.mem_cons_self b l)
      show List.foldl _ _ _ = _
      rw [List.foldl_cons, List.foldl_cons,
        posixpathJoin2_normal p b hp hpl hb.2.1]
      exact ih _ (joinStep_ne_nil p b)
        (by rw [joinStep_getLast? p b hb.1]; exact hb.2.2)
        (fun x hx => hl x (List.mem_cons_of_mem _ hx))

lemma cleanComp_of_digits {l : List Char} (hne : l ≠ [])
    (hdig : ∀ c ∈ l, c.isDigit) : cleanComp ⟨l⟩ := by
  refine ⟨by simpa using hne, ?_, ?_⟩
  · intro h
    exact absurd (hdig _ (List.mem_of_mem_head? (show '/' ∈ List.head? l by simpa using h)))
      (by decide)
  · intro h
    exact absurd (hdig _ (mem_of_getLast?_eq_some (show List.getLast? l = some '/' by simpa using h)))
      (by decide)

/-! ### The date slices of the timestamp -/

lemma pyTake_year (s : String) : pyTake (pyTake s 8) 4 = pyTake s 4 := by
  apply String.ext
  show (s.data.take 8).take 4 = s.data.take 4
  rw [List.take_take]
  norm_num

lemma pySlice_month (s : String) : pySlice (pyTake s 8) 4 6 = pySlice s 4 6 := by
  apply String.ext
  show ((s.data.take 8).drop 4).take (6 - 4) = (s.data.drop 4).take (6 - 4)
  rw [List.drop_take, List.take_take]
  norm_num

lemma pySlice_day (s : String) : pySlice (pyTake s 8) 6 8 = pySlice s 6 8 := by
  apply String.ext
  show ((s.data.take 8).drop 6).take (8 - 6) = (s.data.drop 6).take (8 - 6)
  rw [List.drop_take, List.take_take]
  norm_num

lemma clean_year (t : String) (hlen : 8 ≤ t.data.length)
    (hd : ∀ c ∈ t.data.take 8, c.isDigit) : cleanComp (pyTake t 4) := by
  apply cleanComp_of_digits
  · have h4 : 4 ≤ t.data.length := le_trans (by norm_num) hlen
    intro h
    have hl := congrArg List.length h
    rw [List.length_take, List.length_nil] at hl
    omega
  · intro c hc
    apply hd
    have : t.data.take 4 = (t.data.take 8).take 4 := by rw [List.take_take]; norm_num
    rw [this] at hc
    exact List.take_subset _ _ hc

lemma clean_month (t : String) (hlen : 8 ≤ t.data.length)
    (hd : ∀ c ∈ t.data.take 8, c.isDigit) : cleanComp (pySlice t 4 6) := by
  apply cleanComp_of_digits
  · intro h
    have hl := congrArg List.length h
    rw [List.length_take, List.length_drop, List.length_nil] at hl
    omega
  · intro c hc
    apply hd
    have : (t.data.drop 4).take (6 - 4) = (t.data.take 6).drop 4 := by
      rw [List.drop_take]
    rw [this] at hc
    have h6 : t.data.take 6 = (t.data.take 8).take 6 := by rw [List.take_take]; norm_num
    have := List.drop_subset 4 (t.data.take 6) hc
    rw [h6] at this
    exact List.take_subset _ _ this

lemma clean_day (t : String) (hlen : 8 ≤ t.data.length)
    (hd : ∀ c ∈ t.data.take 8, c.isDigit) : cleanComp (pySlice t 6 8) := by
  apply cleanComp_of_digits
  · intro h
    have hl := congrArg List.length h
    rw [List.length_take, List.length_drop, List.length_nil] at hl
    omega
  · intro c hc
    apply hd
    have : (t.data.drop 6).take (8 - 6) = (t.data.take 8).drop 6 := by
      rw [List.drop_take]
    rw [this] at hc
    exact List.drop_subset _ _ hc

/-! ### The head of the file-name component never carries a slash -/

lemma head?_of_append_left (a b : String) (ha : a.data ≠ []) :
    (a ++ b).data.head? = a.data.head? := by
  rw [String.data_append, List.head?_append_of_ne_nil _ ha]

lemma append_data_ne_nil_right (a b : String) (hb : b.data ≠ []) :
    (a ++ b).data ≠ [] := by
  rw [String.data_append]
  simp [hb]

lemma head?_cat_underscore (c : String) (hc : c.data.head? ≠ some '/') :
    (c ++ "_").data.head? ≠ some '/' := by
  rw [String.data_append]
  cases h : c.data with
  | nil => decide
  | cons x xs =>
      rw [List.head?_append_of_ne_nil _ (List.cons_ne_nil x xs)]
      rw [h] at hc
      exact hc

lemma filename_head_ne_slash (c rest : String) (hc : c.data.head? ≠ some '/') :
    (c ++ "_" ++ rest).data.head? ≠ some '/' := by
  rw [head?_of_append_left _ _ (append_data_ne_nil_right c "_" (by decide))]
  exact head?_cat_underscore c hc

lemma append_data_ne_nil_left (a b : String) (ha : a.data ≠ []) :
    (a ++ b).data ≠ [] := by
  rw [String.data_append]
  simp [ha]

lemma full_filename_head_ne_slash (c t e : String) (hc : c.data.head? ≠ some '/') :
    (c ++ "_" ++ t ++ e).data.head? ≠ some '/' := by
  rw [head?_of_append_left _ e
    (append_data_ne_nil_left _ t (append_data_ne_nil_right c "_" (by decide)))]
  exact filename_head_ne_slash c t hc

/-- C1: the storage path builder yields
`<kind-prefix>/<store id>/<YYYY>/<MM>/<DD>/<category>_<timestamp>.<ext>`
with kind-prefixes `results`, `images/raw`, `images/base64`, and date folders
taken from the first eight characters of the timestamp; for timestamp
`"20240115_101500"` the date partition is year `2024`, month `01`, day `15`. -/
theorem claim_C1_storage_path_form
    (category timestamp store_id original_filename : String)
    (hsid : cleanComp store_id)
    (hcat : category.data.head? ≠ some '/')
    (hlen : 8 ≤ timestamp.data.length)
    (hdig : ∀ c ∈ timestamp.data.take 8, c.isDigit) :
    json_result_path category timestamp store_id =
      "results" ++ "/" ++ store_id ++ "/" ++ pyTake timestamp 4 ++ "/" ++
        pySlice timestamp 4 6 ++ "/" ++ pySlice timestamp 6 8 ++ "/" ++
        (category ++ "_" ++ timestamp ++ ".json") ∧
    raw_image_path category store_id original_filename timestamp =
      "images" ++ "/" ++ "raw" ++ "/" ++ store_id ++ "/" ++ pyTake timestamp 4 ++ "/" ++
        pySlice timestamp 4 6 ++ "/" ++ pySlice timestamp 6 8 ++ "/" ++
        (category ++ "_" ++ timestamp ++ (splitext original_filename).2) ∧
    base64_text_path category store_id timestamp =
      "images" ++ "/" ++ "base64" ++ "/" ++ store_id ++ "/" ++ pyTake timestamp 4 ++ "/" ++
        pySlice timestamp 4 6 ++ "/" ++ pySlice timestamp 6 8 ++ "/" ++
        (category ++ "_" ++ timestamp ++ ".txt") ∧
    pyTake "20240115_101500" 4 = "2024" ∧
    pySlice "20240115_101500" 4 6 = "01" ∧
    pySlice "20240115_101500" 6 8 = "15" := by
  have hyear := clean_year timestamp hlen hdig
  have hmonth := clean_month timestamp hlen hdig
  have hday := clean_day timestamp hlen hdig
  refine ⟨?_, ?_, ?_, by decide, by decide, by decide⟩
  · simp only [json_result_path]
    rw [pyTake_year, pySlice_month, pySlice_day]
    rw [posixpathJoin_clean _ "results" (by decide) (by decide) ?_]
    · simp only [List.foldl_cons, List.foldl_nil]
      rw [posixpathJoin2_normal _ _ (joinStep_ne_nil _ _)
        (by rw [joinStep_getLast? _ _ hday.1]; exact hday.2.2)
        (full_filename_head_ne_slash category timestamp ".json" hcat)]
    · intro b hb
      simp only [List.mem_cons, List.not_mem_nil, or_false] at hb
      rcases hb with rfl | rfl | rfl | rfl
      exacts [hsid, hyear, hmonth, hday]
  · simp only [raw_image_path]
    rw [pyTake_year, pySlice_month, pySlice_day]
    rw [posixpathJoin_clean _ "images" (by decide) (by decide) ?_]
    · simp only [List.foldl_cons, List.foldl_nil]
      rw [posixpathJoin2_normal _ _ (joinStep_ne_nil _ _)
        (by rw [joinStep_getLast? _ _ hday.1]; exact hday.2.2)
        (full_filename_head_ne_slash category timestamp _ hcat)]
    · intro b hb
      simp only [List.mem_cons, List.not_mem_nil, or_false] at hb
      rcases hb with rfl | rfl | rfl | rfl | rfl
      exacts [by decide, hsid, hyear, hmonth, hday]
  · simp only [base64_text_path]
    rw [pyTake_year, pySlice_month, pySlice_day]
    rw [posixpathJoin_clean _ "images" (by decide) (by decide) ?_]
    · simp only [List.foldl_cons, List.foldl_nil]
      rw [posixpathJoin2_normal _ _ (joinStep_ne_nil _ _)
        (by rw [joinStep_getLast? _ _ hday.1]; exact hday.2.2)
        (full_filename_head_ne_slash category timestamp ".txt" hcat)]
    · intro b hb
      simp only [List.mem_cons, List.not_mem_nil, or_false] at hb
      rcases hb with rfl | rfl | rfl | rfl | rfl
      exacts [by decide, hsid, hyear, hmonth, hday]

/-- Witness for C1 at category `dustbin`, store `SM-001`, timestamp
`20240115_101500`, filename `photo.jpg`. -/
theorem claim_C1_storage_path_form_witness :
    json_result_path "dustbin" "20240115_101500" "SM-001" =
      "results/SM-001/2024/01/15/dustbin_20240115_101500.json" ∧
    raw_image_path "dustbin" "SM-001" "photo.jpg" "20240115_101500" =
      "images/raw/SM-001/2024/01/15/dustbin_20240115_101500.jpg" ∧
    base64_text_path "dustbin" "SM-001" "20240115_101500" =
      "images/base64/SM-001/2024/01/15/dustbin_20240115_101500.txt" := by
  have h := claim_C1_storage_path_form "dustbin" "20240115_101500" "SM-001" "photo.jpg"
    (by decide) (by decide) (by decide) (by decide)
  refine ⟨?_, ?_, ?_⟩
  · rw [h.1]; decide
  · rw [h.2.1]; decide
  · rw [h.2.2.1]; decide

/-! ### Verbatim appearance of user-controlled segments in the built paths -/

lemma posixpathJoin2_extends (p b : String) (hb : b.data.head? ≠ some '/') :
    ∃ q, (posixpathJoin2 p b).data = p.data ++ q := by
  unfold posixpathJoin2
  rw [strStartsSlash_eq_false hb]
  simp only [Bool.false_eq_true, if_false]
  by_cases hp : (p = "" || strEndsSlash p) = true
  · rw [if_pos hp]
    exact ⟨b.data, String.data_append p b⟩
  · rw [if_neg hp]
    exact ⟨'/' :: b.data, data_join_step p b⟩

lemma suffix_posixpathJoin2 (p b : String) :
    b.data <:+: (posixpathJoin2 p b).data := by
  unfold posixpathJoin2
  by_cases h1 : strStartsSlash b = true
  · rw [if_pos h1]
  · rw [if_neg h1]
    by_cases h2 : (p = "" || strEndsSlash p) = true
    · rw [if_pos h2, String.data_append]
      exact (List.suffix_append p.data b.data).isInfix
    · rw [if_neg h2, data_join_step,
        show p.data ++ '/' :: b.data = (p.data ++ ['/']) ++ b.data by simp]
      exact (List.suffix_append _ b.data).isInfix

lemma infix_posixpathJoin_of (l : List String) : ∀ (p : String) (m : List Char),
    m <:+: p.data → (∀ b ∈ l, b.data.head? ≠ some '/') →
    m <:+: (posixpathJoin p l).data := by
  induction l with
  | nil => intro p m hm _; exact hm
  | cons b l ih =>
      intro p m hm hl
      show m <:+: (posixpathJoin (posixpathJoin2 p b) l).data
      obtain ⟨q, hq⟩ := posixpathJoin2_extends p b (hl b (List.mem_cons_self b l))
      refine ih _ m ?_ (fun x hx => hl x (List.mem_cons_of_mem _ hx))
      rw [hq]
      exact hm.trans (List.prefix_append p.data q).isInfix

lemma head_ne_slash_of_digits {l : List Char} (hd : ∀ c ∈ l, c.isDigit) :
    l.head? ≠ some '/' := by
  intro h
  exact absurd (hd _ (List.mem_of_mem_head? h)) (by decide)

lemma year_digits (t : String) (hd : ∀ c ∈ t.data.take 8, c.isDigit) :
    ∀ c ∈ (pyTake (pyTake t 8) 4).data, c.isDigit := by
  intro c hc
  exact hd c (List.take_subset _ _ hc)

lemma month_digits (t : String) (hd : ∀ c ∈ t.data.take 8, c.isDigit) :
    ∀ c ∈ (pySlice (pyTake t 8) 4 6).data, c.isDigit := by
  intro c hc
  apply hd
  have hdrop : ((t.data.take 8).drop 4).take (6 - 4) ⊆ (t.data.take 8).drop 4 :=
    List.take_subset _ _
  exact List.drop_subset _ _ (hdrop hc)

lemma day_digits (t : String) (hd : ∀ c ∈ t.data.take 8, c.isDigit) :
    ∀ c ∈ (pySlice (pyTake t 8) 6 8).data, c.isDigit := by
  intro c hc
  apply hd
  have hdrop : ((t.data.take 8).drop 6).take (8 - 6) ⊆ (t.data.take 8).drop 6 :=
    List.take_subset _ _
  exact List.drop_subset _ _ (hdrop hc)

lemma prefix_of_filename (c t e : String) :
    c.data <+: (c ++ "_" ++ t ++ e).data := by
  rw [String.data_append, String.data_append, String.data_append]
  rw [show (c.data ++ "_".data ++ t.data) ++ e.data =
    c.data ++ ("_".data ++ t.data ++ e.data) by simp [List.append_assoc]]
  exact List.prefix_append _ _

lemma store_id_infix_join (base : String) (pre : List String)
    (store_id : String) (tail₁ : List String) (fname : String)
    (hpre : posixpathJoin base (pre ++ store_id :: tail₁) =
      posixpathJoin (posixpathJoin (posixpathJoin base pre) [store_id]) tail₁)
    (htail : ∀ b ∈ tail₁, b.data.head? ≠ some '/')
    (hf : fname.data.head? ≠ some '/') :
    store_id.data <:+:
      (posixpathJoin2 (posixpathJoin base (pre ++ store_id :: tail₁)) fname).data := by
  obtain ⟨q, hq⟩ := posixpathJoin2_extends (posixpathJoin base (pre ++ store_id :: tail₁)) fname hf
  rw [hq]
  refine (List.IsInfix.trans ?_ (List.prefix_append _ q).isInfix)
  rw [hpre]
  exact infix_posixpathJoin_of tail₁ _ _
    (suffix_posixpathJoin2 (posixpathJoin base pre) store_id) htail

/-- C7: the path builders are deterministic and pure, and perform no
normalization or escaping on the store id or the category: for handler
inputs (category from the enum, digit-led timestamp) both appear verbatim
— as contiguous substrings — in every resulting path, whatever characters
(including path separators) the store id contains. -/
theorem claim_C7_deterministic_verbatim :
    (∀ c₁ c₂ t₁ t₂ s₁ s₂ f₁ f₂ : String, c₁ = c₂ → t₁ = t₂ → s₁ = s₂ → f₁ = f₂ →
      json_result_path c₁ t₁ s₁ = json_result_path c₂ t₂ s₂ ∧
      raw_image_path c₁ s₁ f₁ t₁ = raw_image_path c₂ s₂ f₂ t₂ ∧
      base64_text_path c₁ s₁ t₁ = base64_text_path c₂ s₂ t₂) ∧
    (∀ category timestamp store_id original_filename : String,
      category.data.head? ≠ some '/' →
      (∀ c ∈ timestamp.data.take 8, c.isDigit) →
      (store_id.data <:+: (json_result_path category timestamp store_id).data ∧
       category.data <:+: (json_result_path category timestamp store_id).data) ∧
      (store_id.data <:+: (raw_image_path category store_id original_filename timestamp).data ∧
       category.data <:+: (raw_image_path category store_id original_filename timestamp).data) ∧
      (store_id.data <:+: (base64_text_path category store_id timestamp).data ∧
       category.data <:+: (base64_text_path category store_id timestamp).data)) := by
  constructor
  · rintro c₁ c₂ t₁ t₂ s₁ s₂ f₁ f₂ rfl rfl rfl rfl
    exact ⟨rfl, rfl, rfl⟩
  · intro category timestamp store_id original_filename hcat hdig
    have hy := head_ne_slash_of_digits (year_digits timestamp hdig)
    have hm := head_ne_slash_of_digits (month_digits timestamp hdig)
    have hd := head_ne_slash_of_digits (day_digits timestamp hdig)
    have hfn : ∀ e : String, (category ++ "_" ++ timestamp ++ e).data.head? ≠ some '/' :=
      fun e => full_filename_head_ne_slash category timestamp e hcat
    have hcatfix : ∀ dir e : String,
        category.data <:+: (posixpathJoin2 dir (category ++ "_" ++ timestamp ++ e)).data :=
      fun dir e => (prefix_of_filename category timestamp e).isInfix.trans
        (suffix_posixpathJoin2 dir _)
    refine ⟨⟨?_, hcatfix _ _⟩, ⟨?_, ?_⟩, ⟨?_, hcatfix _ _⟩⟩
    · exact store_id_infix_join "results" [] store_id
        [pyTake (pyTake timestamp 8) 4, pySlice (pyTake timestamp 8) 4 6,
         pySlice (pyTake timestamp 8) 6 8] _ rfl
        (by
          intro b hb
          simp only [List.mem_cons, List.not_mem_nil, or_false] at hb
          rcases hb with rfl | rfl | rfl
          exacts [hy, hm, hd])
        (hfn ".json")
    · exact store_id_infix_join "images" ["raw"] store_id
        [pyTake (pyTake timestamp 8) 4, pySlice (pyTake timestamp 8) 4 6,
         pySlice (pyTake timestamp 8) 6 8] _ rfl
        (by
          intro b hb
          simp only [List.mem_cons, List.not_mem_nil, or_false] at hb
          rcases hb with rfl | rfl | rfl
          exacts [hy, hm, hd])
        (hfn (splitext original_filename).2)
    · exact hcatfix _ _
    · exact store_id_infix_join "images" ["base64"] store_id
        [pyTake (pyTake timestamp 8) 4, pySlice (pyTake timestamp 8) 4 6,
         pySlice (pyTake timestamp 8) 6 8] _ rfl
        (by
          intro b hb
          simp only [List.mem_cons, List.not_mem_nil, or_false] at hb
          rcases hb with rfl | rfl | rfl
          exacts [hy, hm, hd])
        (hfn ".txt")

/-- Witness for C7: a store id containing a path separator still appears
verbatim in the built path. -/
theorem claim_C7_deterministic_verbatim_witness :
    ("st/../ore".data <:+: (json_result_path "dustbin" "20240115_101500" "st/../ore").data ∧
     "dustbin".data <:+: (json_result_path "dustbin" "20240115_101500" "st/../ore").data) ∧
    ("st/../ore".data <:+: (raw_image_path "dustbin" "st/../ore" "photo.jpg" "20240115_101500").data ∧
     "dustbin".data <:+: (raw_image_path "dustbin" "st/../ore" "photo.jpg" "20240115_101500").data) ∧
    ("st/../ore".data <:+: (base64_text_path "dustbin" "st/../ore" "20240115_101500").data ∧
     "dustbin".data <:+: (base64_text_path "dustbin" "st/../ore" "20240115_101500").data) :=
  claim_C7_deterministic_verbatim.2 "dustbin" "20240115_101500" "st/../ore" "photo.jpg"
    (by decide) (by decide)


/-! ## The data model of `src/Upload_image/__init__.py` -/

/-- JSON values, as produced by `json.loads` and consumed by `json.dumps`. -/
inductive Json where
  | null
  | bool (b : Bool)
  | num (n : Int)
  | str (s : String)
  | arr (elems : List Json)
  | obj (fields : List (String × Json))

/-- Python `key in value` on a `json.loads` result: key lookup on a dict,
membership (string equality) on a list, substring test on a string, and a
`TypeError` on anything non-iterable. -/
def pyContainsKey (j : Json) (k : String) : Except String Bool :=
  match j with
  | .obj fields => .ok (fields.any (fun kv => kv.1 = k))
  | .arr elems => .ok (elems.any (fun e => match e with
      | .str s => s = k
      | _ => false))
  | .str s => .ok (decide (k.data <:+: s.data))
  | _ => .error "TypeError: argument of type is not iterable"

/-- Python `value[k]` subscription: dict lookup (`KeyError` when the key is
absent), `TypeError` on non-dicts. -/
def pySubscript (j : Json) (k : String) : Except String Json :=
  match j with
  | .obj fields =>
      match fields.find? (fun kv => kv.1 = k) with
      | some kv => .ok kv.2
      | none => .error ("KeyError: " ++ k)
  | _ => .error "TypeError: value is not subscriptable"

/-- Python `value.get(k, fallback)`: an `AttributeError` on non-dicts. -/
def pyDictGet (j : Json) (k : String) (fallback : Json) : Except String Json :=
  match j with
  | .obj fields =>
      match fields.find? (fun kv => kv.1 = k) with
      | some kv => .ok kv.2
      | none => .ok fallback
  | _ => .error "AttributeError: get"

/-- Field access on a JSON object, for stating properties of response
bodies (not part of the translated code). -/
def jsonGet (j : Json) (k : String) : Option Json :=
  match j with
  | .obj fields => (fields.find? (fun kv => kv.1 = k)).map (fun kv => kv.2)
  | _ => none

/-- The RFC 4648 alphabet used by Python `base64.b64encode`. -/
def base64Alphabet : List Char :=
  "ABCDEFGHIJKLMNOPQRSTUVWXYZabcdefghijklmnopqrstuvwxyz0123456789+/".data

def base64Digit (n : Nat) : Char := base64Alphabet.getD n 'A'

def base64Groups : List Nat → List Char
  | [] => []
  | [b0] => [base64Digit (b0 / 4), base64Digit (b0 % 4 * 16), '=', '=']
  | [b0, b1] => [base64Digit (b0 / 4), base64Digit (b0 % 4 * 16 + b1 / 16),
      base64Digit (b1 % 16 * 4), '=']
  | b0 :: b1 :: b2 :: rest =>
      base64Digit (b0 / 4) :: base64Digit (b0 % 4 * 16 + b1 / 16) ::
        base64Digit (b1 % 16 * 4 + b2 / 64) :: base64Digit (b2 % 64) ::
        base64Groups rest

/-- Python `base64.b64encode(content).decode("utf-8")` on a byte string. -/
def b64encode (content : List Nat) : String := ⟨base64Groups content⟩

/-- The strict output-format instruction appended to every prompt. -/
def JSON_RULE : String :=
  "\nYou MUST respond ONLY in valid JSON.\nDo NOT include explanations, markdown, or any extra text.\nOutput must match this format exactly:\n\x7b\n  \"status\": \"pass or fail\",\n  \"summary\": \"\",\n  \"score\": 8,\n  \"details\": \x7b\n    \"issues_found\": [],\n    \"comments\": \"Any additional descriptive comments or context.\"\n  \x7d\n\x7d\n"

/-- The category-to-prompt dispatch table (all 19 categories). -/
def CATEGORY_PROMPTS : List (String × String) := [
  ("dresscode",
   "\nAnalyze employee dress code from the image:\n- Shirt must be black or white.\n- Pants must be black.\n- Shoes must be present.\n- Beard should not be present.\n- Hair must not be frizzy and no weird hairstyles.\nList all violations or missing required elements.\nProvide a compliance rating from 1–10.\nReturn JSON only.\n"),
  ("dustbin",
   "\nAnalyze the dustbin in the image:\n- Is the dustbin visible?\n- Is it clean or untidy?\n- Is a poly cover present?\n- Is it overflowing?\nList all missing or non-compliant items.\nProvide a hygiene rating from 1–10.\nReturn JSON only.\n"),
  ("lightscheck",
   "\nAnalyze the lighting in the image:\n- Identify lights that are ON.\n- Identify lights that are OFF.\n- Detect dim, flickering, or faulty lights.\nProvide a lighting rating from 1–10.\nReturn JSON only.\n"),
  ("floorcheck",
   "\nAnalyze floor cleanliness:\n- Check for hair, dust, stains, spills, or marks.\n- Check whether the floor is dry and clean.\nProvide a floor cleanliness rating from 1–10.\nReturn JSON only.\n"),
  ("nailpolishtray",
   "\nAnalyze the nail polish tray:\n- Check if bottles are arranged neatly.\n- Identify bottles with missing caps.\n- Detect spills or stains.\nProvide an organization rating from 1–10.\nReturn JSON only.\n"),
  ("shampoobottles",
   "\nAnalyze the shampoo bottle arrangement:\n- Verify if bottles are arranged properly.\n- Identify clutter or messy surroundings.\n- Check for spills or stains.\nProvide an arrangement rating from 1–10.\nReturn JSON only.\n"),
  ("restroomcheck",
   "\nAnalyze the restroom condition:\n- Check if the toilet is clean.\n- Check if the basin is clean.\n- Identify stains or hair.\n- Verify availability of handwash.\n- Verify availability of room freshener.\nProvide a restroom hygiene rating from 1–10.\nReturn JSON only.\n"),
  ("bedcheck",
   "\nAnalyze the bed setup:\n- Check if a fresh disposable sheet is placed on the bed.\nList issues such as missing or dirty sheet.\nProvide a rating from 1–10.\nReturn JSON only.\n"),
  ("waxtinscheck",
   "\nAnalyze the wax tins:\n- Verify if wax tins are covered with foil when not in use.\nProvide a compliance rating from 1–10.\nReturn JSON only.\n"),
  ("pedicuresectioncheck",
   "\nAnalyze the pedicure section:\n- Check if the floor is clean and free from stains.\n- Check presence of required tools:\n  - Cuticle pusher\n  - Metal foot filer\n  - Nail filer\n  - Cuticle cutter\n  - Nail cutter\nProvide an overall rating from 1–10.\nReturn JSON only.\n"),
  ("eyebrowthreadkitcheck",
   "\nAnalyze the eyebrow threading kit:\n- Verify presence of eyebrow thread.\n- Verify presence of powder.\n- Ensure both items are properly placed inside the kit.\nProvide a completeness rating from 1–10.\nReturn JSON only.\n"),
  ("trolleycheck",
   "\nAnalyze the trolley products:\n- Check for required products:\n  - OSIS+ Dust It\n  - OSIS+ Thrill\n  - OSIS+ Flex Wax\nProvide an availability rating from 1–10.\nReturn JSON only.\n"),
  ("sterilizercheck",
   "\nAnalyze the sterilizer:\n- Check whether it is visible.\n- Verify if it appears to be working (lights or indicators ON).\nProvide a sterilizer condition rating from 1–10.\nReturn JSON only.\n"),
  ("hairwashstationcheck",
   "\nAnalyze the hair wash station:\n- Check if the chair has a rubber neck protector.\n- Check floor cleanliness for hair, stains, dirt.\n- Evaluate overall station setup and hygiene.\nProvide an overall rating from 1–10.\nReturn JSON only.\n"),
  ("facialroomstatuscheck",
   "\nAnalyze the facial room status:\n- Identify if signage shows “In Progress” or “Ready for Service”.\n- If signage is not visible, note it.\nProvide a rating from 1–10.\nReturn JSON only.\n"),
  ("receptionareacheck",
   "\nAnalyze the reception area:\n- Check if the reception desk is clean and organized.\n- Check if the counter is free from hair and dust.\n- Verify if printed bills are visible or being used.\n- Check if marketing standees are placed and visible.\n- Check if music is playing (if visually indicated).\n- Verify if all reception-area lights are ON.\n- Check if AC temperature indicator shows 20–22°C.\nProvide a reception-area rating from 1–10.\nReturn JSON only.\n"),
  ("toolsterilizationcheck",
   "\nAnalyze the sterilization of tools:\n- Check if clippers are sterilized.\n- Check if trimmers are sterilized.\n- Check if scissors are sterilized.\n- Check if nail tools (cutters, filers, pushers) are sterilized.\nProvide a tool sterilization rating from 1–10.\nReturn JSON only.\n"),
  ("haircutareacheck",
   "\nAnalyze the haircut area:\n- Check the floor for hair, dust, stains, or spills.\n- Verify if the workstation is clean and organized.\n- Check if tools and products are neatly arranged.\n- Ensure no hair is scattered around the chair or workstation.\nProvide a haircut-area rating from 1–10.\nReturn JSON only.\n"),
  ("glassmirrorschairscheck",
   "\nAnalyze the glass, mirrors, and seating:\n- Check if mirrors are clean and free from stains or smudges.\n- Verify glass doors/partitions are clean and fingerprint-free.\n- Confirm waiting chairs are clean and free from hair or dirt.\n- Check if towels (if visible) are neatly arranged.\nProvide a hygiene and presentation rating from 1–10.\nReturn JSON only.\n")]

/-- An uploaded file part: `file.filename` and the bytes `file.read()` yields. -/
structure FilePart where
  filename : String
  content : List Nat

/-- An inbound HTTP request: query parameters and multipart file parts. -/
structure Request where
  params : List (String × String)
  files : List (String × FilePart)

/-- `.get(k)` on a string-valued mapping (query params, environment). -/
def pyGet (l : List (String × String)) (k : String) : Option String :=
  (l.find? (fun kv => kv.1 = k)).map (fun kv => kv.2)

/-- `req.files.get(k)`. -/
def pyGetFile (l : List (String × FilePart)) (k : String) : Option FilePart :=
  (l.find? (fun kv => kv.1 = k)).map (fun kv => kv.2)

/-- `os.getenv(k)` over a modelled process environment. -/
def getenv (env : List (String × String)) (k : String) : Option String :=
  pyGet env k

/-- The JSON payload POSTed to the Ollama endpoint. -/
structure Payload where
  model : String
  prompt : String
  images : List String
  stream : Bool

/-- Outcome of `requests.post`: either a response (status code, raw body
text, and the result of `response.json()` — `Except.error` when the body is
not valid JSON), or a raised transport exception. -/
inductive PostResult where
  | response (status_code : Nat) (text : String) (body : Except String Json)
  | exn (message : String)

/-- `run_moondream_inference(prompt, image_content)`.  `world` models the
Ollama HTTP endpoint, `jsonLoads` the `json.loads` parser on strings.  The
four-way classification plus the surrounding `except Exception` catch-all
is translated branch for branch. -/
def run_moondream_inference (world : Payload → PostResult)
    (jsonLoads : String → Option Json)
    (prompt : String) (image_content : List Nat) : Json :=
  let full_prompt := prompt ++ "\n\n" ++ JSON_RULE
  let img_b64 := b64encode image_content
  let payload : Payload :=
    { model := "moondream:latest", prompt := full_prompt,
      images := [img_b64], stream := false }
  match world payload with
  | .exn message =>
      Json.obj [("error", Json.str "exception"), ("details", Json.str message)]
  | .response status_code text body =>
      if status_code ≠ 200 then
        Json.obj [("error", Json.str "ollama_error"), ("details", Json.str text)]
      else
        match body with
        | .error e =>
            Json.obj [("error", Json.str "exception"), ("details", Json.str e)]
        | .ok data =>
            match pyContainsKey data "response" with
            | .error e =>
                Json.obj [("error", Json.str "exception"), ("details", Json.str e)]
            | .ok false =>
                Json.obj [("error", Json.str "invalid_format"), ("details", data)]
            | .ok true =>
                match pySubscript data "response" with
                | .error e =>
                    Json.obj [("error", Json.str "exception"), ("details", Json.str e)]
                | .ok reply =>
                    match reply with
                    | Json.str s =>
                        match jsonLoads s with
                        | some parsed => parsed
                        | none =>
                            Json.obj [("error", Json.str "bad_json"), ("details", reply)]
                    | _ => Json.obj [("error", Json.str "bad_json"), ("details", reply)]

/-! ## The storage layer of `src/Upload_image/adls_utils.py` -/

/-- Module-level `ADLS_CONNECTION_STRING = os.getenv("ADLS_CONNECTION_STRING")`. -/
def ADLS_CONNECTION_STRING (env : List (String × String)) : Option String :=
  getenv env "ADLS_CONNECTION_STRING"

/-- `get_service_client()`: raises a `ValueError` when the module-level
connection string is falsy, otherwise creates the client from that
*untrimmed* value; the model returns the connection string used. -/
def get_service_client (env : List (String × String)) : Except String String :=
  match ADLS_CONNECTION_STRING env with
  | none => .error "ADLS_CONNECTION_STRING environment variable is missing"
  | some s =>
      if s = "" then .error "ADLS_CONNECTION_STRING environment variable is missing"
      else .ok s

/-- Success or failure of the three individual ADLS writes, an oracle for
the Azure storage backend. -/
structure StorageBehavior where
  jsonUpload : Except String Unit
  rawUpload : Except String Unit
  b64Upload : Except String Unit

/-- Observable storage actions: an upload helper was entered (attempt), or
an object was actually written at a path. -/
inductive StorageEvent where
  | jsonAttempt
  | jsonWritten (path : String)
  | rawAttempt
  | rawWritten (path : String)
  | b64Attempt
  | b64Written (path : String)
deriving DecidableEq

/-- `upload_json_to_adls(data, category, timestamp, store_id)`: builds the
`results/...` path and writes the JSON dump there; any exception is
re-raised as `Failed to upload JSON to ADLS: ...`. -/
def upload_json_to_adls (env : List (String × String)) (beh : StorageBehavior)
    (data : Json) (category timestamp store_id : String) :
    Except String String × List StorageEvent :=
  match get_service_client env with
  | .error e => (.error ("Failed to upload JSON to ADLS: " ++ e), [.jsonAttempt])
  | .ok _ =>
      match beh.jsonUpload with
      | .error e => (.error ("Failed to upload JSON to ADLS: " ++ e), [.jsonAttempt])
      | .ok _ =>
          let file_path := json_result_path category timestamp store_id
          (.ok file_path, [.jsonAttempt, .jsonWritten file_path])

/-- `upload_image_to_adls(file_content, category, store_id,
original_filename, timestamp)`. -/
def upload_image_to_adls (env : List (String × String)) (beh : StorageBehavior)
    (file_content : List Nat)
    (category store_id original_filename timestamp : String) :
    Except String String × List StorageEvent :=
  let file_path := raw_image_path category store_id original_filename timestamp
  match get_service_client env with
  | .error e => (.error ("Failed to upload raw image to ADLS: " ++ e), [.rawAttempt])
  | .ok _ =>
      match beh.rawUpload with
      | .error e => (.error ("Failed to upload raw image to ADLS: " ++ e), [.rawAttempt])
      | .ok _ => (.ok file_path, [.rawAttempt, .rawWritten file_path])

/-- `upload_base64_to_adls(b64_string, category, store_id, timestamp)`. -/
def upload_base64_to_adls (env : List (String × String)) (beh : StorageBehavior)
    (b64_string : String) (category store_id timestamp : String) :
    Except String String × List StorageEvent :=
  let file_path := base64_text_path category store_id timestamp
  match get_service_client env with
  | .error e => (.error ("Failed to upload base64 to ADLS: " ++ e), [.b64Attempt])
  | .ok _ =>
      match beh.b64Upload with
      | .error e => (.error ("Failed to upload base64 to ADLS: " ++ e), [.b64Attempt])
      | .ok _ => (.ok file_path, [.b64Attempt, .b64Written file_path])

/-- `save_image_and_base64`: the raw image first, the base64 text second;
a failure of either propagates (after the first may already have written). -/
def save_image_and_base64 (env : List (String × String)) (beh : StorageBehavior)
    (file_content : List Nat) (b64_string : String)
    (category store_id original_filename timestamp : String) :
    Except String (String × String) × List StorageEvent :=
  match upload_image_to_adls env beh file_content category store_id original_filename timestamp with
  | (.error e, evs) => (.error e, evs)
  | (.ok raw_path, evs₁) =>
      match upload_base64_to_adls env beh b64_string category store_id timestamp with
      | (.error e, evs₂) => (.error e, evs₁ ++ evs₂)
      | (.ok b64_path, evs₂) => (.ok (raw_path, b64_path), evs₁ ++ evs₂)

/-! ## The request handler `main` -/

/-- Python `s.strip(CHR(34))`: remove all leading and trailing double
quotes. -/
def pyStripQuotes (s : String) : String :=
  ⟨((s.data.dropWhile (fun c => c = '"')).reverse.dropWhile (fun c => c = '"')).reverse⟩

/-- The local, quote-trimmed copy `adls_conn` computed at the top of
`main` (the module-level value read by the storage layer is untouched). -/
def adls_conn_local (env : List (String × String)) : Option String :=
  (getenv env "ADLS_CONNECTION_STRING").map (fun s =>
    if s ≠ "" && decide (s.data.head? = some '"') && decide (s.data.getLast? = some '"') then
      pyStripQuotes s
    else s)

/-- Python truthiness of an optional string. -/
def truthyOpt (o : Option String) : Bool :=
  match o with
  | none => false
  | some s => s ≠ ""

/-- The credential check `if not adls_conn or not adls_container` at the
top of `main` (true when it passes). -/
def adls_env_ok (env : List (String × String)) : Bool :=
  truthyOpt (adls_conn_local env) && truthyOpt (getenv env "ADLS_CONTAINER_NAME")

/-- `CATEGORY_PROMPTS[category]` after validation. -/
def mainPrompt (category : String) : String :=
  ((CATEGORY_PROMPTS.find? (fun kv => kv.1 = category)).map (fun kv => kv.2)).getD ""

/-- An HTTP response of `main` together with the storage events performed. -/
structure MainResult where
  status_code : Nat
  body : Json
  events : List StorageEvent

/-- `json.dumps({"status": "error", "message": ...})`. -/
def errBody (message : String) : Json :=
  Json.obj [("status", Json.str "error"), ("message", Json.str message)]

/-- The Azure Function entry point `main(req)`.  `timestamp` stands for
`datetime.now().strftime("%Y%m%d_%H%M%S")` evaluated during the call,
`world` for the Ollama endpoint, `jsonLoads` for `json.loads`, `beh` for
the storage backend.  The outer `try/except` is translated by turning every
raised exception into the 500 catch-all response. -/
def main (env : List (String × String)) (req : Request) (timestamp : String)
    (world : Payload → PostResult) (jsonLoads : String → Option Json)
    (beh : StorageBehavior) : MainResult :=
  if adls_env_ok env then
    match pyGet req.params "category" with
    | none => ⟨400, errBody "Invalid or missing category: None", []⟩
    | some category =>
        if category = "" || !(CATEGORY_PROMPTS.any (fun kv => kv.1 = category)) then
          ⟨400, errBody ("Invalid or missing category: " ++ category), []⟩
        else
          match pyGet req.params "store_id" with
          | none => ⟨400, errBody "Missing ?store_id=", []⟩
          | some store_id =>
              if store_id = "" then ⟨400, errBody "Missing ?store_id=", []⟩
              else
                match pyGetFile req.files "file" with
                | none => ⟨400, errBody "Missing file upload", []⟩
                | some file =>
                    let file_content := file.content
                    let prompt := mainPrompt category
                    let ai_result := run_moondream_inference world jsonLoads prompt file_content
                    match pyContainsKey ai_result "error" with
                    | .error e => ⟨500, errBody e, []⟩
                    | .ok true =>
                        match pyDictGet ai_result "details" (Json.str "Unknown error") with
                        | .error e => ⟨500, errBody e, []⟩
                        | .ok details =>
                            ⟨200, Json.obj [("status", Json.str "error"),
                              ("filename", Json.str file.filename),
                              ("message", details)], []⟩
                    | .ok false =>
                        match upload_json_to_adls env beh ai_result category timestamp store_id with
                        | (.error e, evs) => ⟨500, errBody e, evs⟩
                        | (.ok adls_path_json, evs₁) =>
                            let b64 := b64encode file_content
                            let imgResult := save_image_and_base64 env beh file_content b64
                              category store_id file.filename timestamp
                            let adls_paths_image : String × String :=
                              match imgResult.1 with
                              | .ok paths => paths
                              | .error _ => ("failed", "failed")
                            ⟨200, Json.obj [("status", Json.str "success"),
                              ("filename", Json.str file.filename),
                              ("category", Json.str category),
                              ("adls_path_json", Json.str adls_path_json),
                              ("adls_path_raw_image", Json.str adls_paths_image.1),
                              ("adls_path_base64", Json.str adls_paths_image.2),
                              ("result", ai_result)], evs₁ ++ imgResult.2⟩
  else
    ⟨500, errBody "Missing ADLS environment variables (ADLS_CONNECTION_STRING or ADLS_CONTAINER_NAME)", []⟩



/-! ## C2: the four-way classification of `run_moondream_inference` -/

/-- C2: every inference call is classified exactly as: non-200 status →
`ollama_error` with the raw body text as details; 200 with a body lacking
the `response` field → `invalid_format`; a `response` field that does not
parse as JSON → `bad_json` with the raw reply as details; otherwise the
parsed JSON object itself; and a raised transport exception → a generic
`exception` error with the exception message as details. -/
theorem claim_C2_inference_classification
    (jsonLoads : String → Option Json) (prompt : String) (image_content : List Nat) :
    (∀ message : String,
      run_moondream_inference (fun _ => PostResult.exn message) jsonLoads prompt image_content =
        Json.obj [("error", Json.str "exception"), ("details", Json.str message)]) ∧
    (∀ (status_code : Nat) (text : String) (body : Except String Json),
      status_code ≠ 200 →
      run_moondream_inference (fun _ => PostResult.response status_code text body)
          jsonLoads prompt image_content =
        Json.obj [("error", Json.str "ollama_error"), ("details", Json.str text)]) ∧
    (∀ (text : String) (data : Json),
      pyContainsKey data "response" = Except.ok false →
      run_moondream_inference (fun _ => PostResult.response 200 text (Except.ok data))
          jsonLoads prompt image_content =
        Json.obj [("error", Json.str "invalid_format"), ("details", data)]) ∧
    (∀ (text : String) (data : Json) (s : String),
      pyContainsKey data "response" = Except.ok true →
      pySubscript data "response" = Except.ok (Json.str s) →
      jsonLoads s = none →
      run_moondream_inference (fun _ => PostResult.response 200 text (Except.ok data))
          jsonLoads prompt image_content =
        Json.obj [("error", Json.str "bad_json"), ("details", Json.str s)]) ∧
    (∀ (text : String) (data : Json) (s : String) (parsed : Json),
      pyContainsKey data "response" = Except.ok true →
      pySubscript data "response" = Except.ok (Json.str s) →
      jsonLoads s = some parsed →
      run_moondream_inference (fun _ => PostResult.response 200 text (Except.ok data))
          jsonLoads prompt image_content = parsed) := by
  refine ⟨?_, ?_, ?_, ?_, ?_⟩
  · intro message
    simp [run_moondream_inference]
  · intro status_code text body hsc
    simp [run_moondream_inference, hsc]
  · intro text data hmem
    simp [run_moondream_inference, hmem]
  · intro text data s hmem hsub hload
    simp [run_moondream_inference, hmem, hsub, hload]
  · intro text data s parsed hmem hsub hload
    simp [run_moondream_inference, hmem, hsub, hload]

/-- Witness for C2: all five classifications at concrete inputs. -/
theorem claim_C2_inference_classification_witness :
    (run_moondream_inference (fun _ => PostResult.exn "connection refused")
        (fun _ => none) "p" [] =
      Json.obj [("error", Json.str "exception"), ("details", Json.str "connection refused")]) ∧
    (run_moondream_inference
        (fun _ => PostResult.response 503 "Service Unavailable" (Except.error "not json"))
        (fun _ => none) "p" [] =
      Json.obj [("error", Json.str "ollama_error"), ("details", Json.str "Service Unavailable")]) ∧
    (run_moondream_inference
        (fun _ => PostResult.response 200 "t" (Except.ok (Json.obj [("other", Json.null)])))
        (fun _ => none) "p" [] =
      Json.obj [("error", Json.str "invalid_format"),
        ("details", Json.obj [("other", Json.null)])]) ∧
    (run_moondream_inference
        (fun _ => PostResult.response 200 "t"
          (Except.ok (Json.obj [("response", Json.str "not json")])))
        (fun _ => none) "p" [] =
      Json.obj [("error", Json.str "bad_json"), ("details", Json.str "not json")]) ∧
    (run_moondream_inference
        (fun _ => PostResult.response 200 "t"
          (Except.ok (Json.obj [("response", Json.str "ok")])))
        (fun s => if s = "ok" then some (Json.obj [("status", Json.str "pass")]) else none)
        "p" [] =
      Json.obj [("status", Json.str "pass")]) := by
  have h1 := (claim_C2_inference_classification (fun _ => none) "p" []).1 "connection refused"
  have h2 := (claim_C2_inference_classification (fun _ => none) "p" []).2.1 503
    "Service Unavailable" (Except.error "not json") (by decide)
  have h3 := (claim_C2_inference_classification (fun _ => none) "p" []).2.2.1 "t"
    (Json.obj [("other", Json.null)]) (by rfl)
  have h4 := (claim_C2_inference_classification (fun _ => none) "p" []).2.2.2.1 "t"
    (Json.obj [("response", Json.str "not json")]) "not json" (by rfl) (by rfl) (by rfl)
  have h5 := (claim_C2_inference_classification
    (fun s => if s = "ok" then some (Json.obj [("status", Json.str "pass")]) else none)
    "p" []).2.2.2.2 "t" (Json.obj [("response", Json.str "ok")]) "ok"
    (Json.obj [("status", Json.str "pass")]) (by rfl) (by rfl) (by rfl)
  exact ⟨h1, h2, h3, h4, h5⟩

/-! ## C4: validation order in `main` -/

/-- C4: `main` validates storage credentials, then the category, then the
store id, then the file part, in that order; each failing check produces
its error response (500 for missing configuration, 400 for caller
mistakes, the category message naming the category) before any inference
or storage work — the response and the (empty) event list do not depend on
the inference world or the storage behaviour. -/
theorem claim_C4_validation_order :
    (∀ env req timestamp world jsonLoads beh,
      adls_env_ok env = false →
      main env req timestamp world jsonLoads beh =
        ⟨500, errBody "Missing ADLS environment variables (ADLS_CONNECTION_STRING or ADLS_CONTAINER_NAME)", []⟩) ∧
    (∀ env req timestamp world jsonLoads beh,
      adls_env_ok env = true →
      pyGet req.params "category" = none →
      main env req timestamp world jsonLoads beh =
        ⟨400, errBody "Invalid or missing category: None", []⟩) ∧
    (∀ env req timestamp world jsonLoads beh category,
      adls_env_ok env = true →
      pyGet req.params "category" = some category →
      (category = "" ∨ CATEGORY_PROMPTS.any (fun kv => kv.1 = category) = false) →
      main env req timestamp world jsonLoads beh =
        ⟨400, errBody ("Invalid or missing category: " ++ category), []⟩) ∧
    (∀ env req timestamp world jsonLoads beh category,
      adls_env_ok env = true →
      pyGet req.params "category" = some category →
      category ≠ "" →
      CATEGORY_PROMPTS.any (fun kv => kv.1 = category) = true →
      (pyGet req.params "store_id" = none ∨ pyGet req.params "store_id" = some "") →
      main env req timestamp world jsonLoads beh =
        ⟨400, errBody "Missing ?store_id=", []⟩) ∧
    (∀ env req timestamp world jsonLoads beh category store_id,
      adls_env_ok env = true →
      pyGet req.params "category" = some category →
      category ≠ "" →
      CATEGORY_PROMPTS.any (fun kv => kv.1 = category) = true →
      pyGet req.params "store_id" = some store_id →
      store_id ≠ "" →
      pyGetFile req.files "file" = none →
      main env req timestamp world jsonLoads beh =
        ⟨400, errBody "Missing file upload", []⟩) := by
  refine ⟨?_, ?_, ?_, ?_, ?_⟩
  · intro env req timestamp world jsonLoads beh henv
    simp [main, henv]
  · intro env req timestamp world jsonLoads beh henv hcat
    simp [main, henv, hcat]
  · intro env req timestamp world jsonLoads beh category henv hcat hbad
    rcases hbad with hbad | hbad
    · simp [main, henv, hcat, hbad]
    · simp [main, henv, hcat, hbad]
  · intro env req timestamp world jsonLoads beh category henv hcat hc1 hc2 hsid
    rcases hsid with hsid | hsid
    · simp [main, henv, hcat, hc1, hc2, hsid]
    · simp [main, henv, hcat, hc1, hc2, hsid]
  · intro env req timestamp world jsonLoads beh category store_id
      henv hcat hc1 hc2 hsid hsne hfile
    simp [main, henv, hcat, hc1, hc2, hsid, hsne, hfile]

/-- Witness for C4: the five short-circuits at concrete requests. -/
theorem claim_C4_validation_order_witness :
    (main [] ⟨[], []⟩ "t" (fun _ => PostResult.exn "x") (fun _ => none)
        ⟨Except.ok (), Except.ok (), Except.ok ()⟩ =
      ⟨500, errBody "Missing ADLS environment variables (ADLS_CONNECTION_STRING or ADLS_CONTAINER_NAME)", []⟩) ∧
    (main [("ADLS_CONNECTION_STRING", "c"), ("ADLS_CONTAINER_NAME", "pazo")] ⟨[], []⟩ "t"
        (fun _ => PostResult.exn "x") (fun _ => none)
        ⟨Except.ok (), Except.ok (), Except.ok ()⟩ =
      ⟨400, errBody "Invalid or missing category: None", []⟩) ∧
    (main [("ADLS_CONNECTION_STRING", "c"), ("ADLS_CONTAINER_NAME", "pazo")]
        ⟨[("category", "nonsense")], []⟩ "t"
        (fun _ => PostResult.exn "x") (fun _ => none)
        ⟨Except.ok (), Except.ok (), Except.ok ()⟩ =
      ⟨400, errBody "Invalid or missing category: nonsense", []⟩) ∧
    (main [("ADLS_CONNECTION_STRING", "c"), ("ADLS_CONTAINER_NAME", "pazo")]
        ⟨[("category", "dustbin")], []⟩ "t"
        (fun _ => PostResult.exn "x") (fun _ => none)
        ⟨Except.ok (), Except.ok (), Except.ok ()⟩ =
      ⟨400, errBody "Missing ?store_id=", []⟩) ∧
    (main [("ADLS_CONNECTION_STRING", "c"), ("ADLS_CONTAINER_NAME", "pazo")]
        ⟨[("category", "dustbin"), ("store_id", "SM-001")], []⟩ "t"
        (fun _ => PostResult.exn "x") (fun _ => none)
        ⟨Except.ok (), Except.ok (), Except.ok ()⟩ =
      ⟨400, errBody "Missing file upload", []⟩) := by
  refine ⟨?_, ?_, ?_, ?_, ?_⟩
  · exact claim_C4_validation_order.1 _ _ _ _ _ _ (by rfl)
  · exact claim_C4_validation_order.2.1 _ _ _ _ _ _ (by rfl) (by rfl)
  · exact claim_C4_validation_order.2.2.1 _ _ _ _ _ _ "nonsense" (by rfl) (by rfl)
      (Or.inr (by rfl))
  · exact claim_C4_validation_order.2.2.2.1 _ _ _ _ _ _ "dustbin" (by rfl) (by rfl)
      (by decide) (by rfl) (Or.inl (by rfl))
  · exact claim_C4_validation_order.2.2.2.2 _ _ _ _ _ _ "dustbin" "SM-001" (by rfl) (by rfl)
      (by decide) (by rfl) (by rfl) (by decide) (by rfl)



/-! ## Helper facts about `main` under a valid environment -/

lemma get_service_client_ok_of_env_ok {env : List (String × String)}
    (h : adls_env_ok env = true) : ∃ s, get_service_client env = Except.ok s := by
  unfold adls_env_ok truthyOpt adls_conn_local at h
  cases hc : getenv env "ADLS_CONNECTION_STRING" with
  | none => rw [hc] at h; simp at h
  | some s =>
      by_cases hs : s = ""
      · subst hs
        rw [hc] at h
        simp at h
      · exact ⟨s, by simp [get_service_client, ADLS_CONNECTION_STRING, hc, hs]⟩

lemma main_marker_outcome
    {env : List (String × String)} {req : Request} {timestamp : String}
    {world : Payload → PostResult} {jsonLoads : String → Option Json}
    {beh : StorageBehavior} {category store_id : String} {f : FilePart}
    {fields : List (String × Json)}
    (henv : adls_env_ok env = true)
    (hcat : pyGet req.params "category" = some category)
    (hc1 : category ≠ "")
    (hc2 : CATEGORY_PROMPTS.any (fun kv => kv.1 = category) = true)
    (hsid : pyGet req.params "store_id" = some store_id)
    (hsne : store_id ≠ "")
    (hfile : pyGetFile req.files "file" = some f)
    (hai : run_moondream_inference world jsonLoads (mainPrompt category) f.content =
      Json.obj fields)
    (hmark : fields.any (fun kv => kv.1 = "error") = true) :
    (main env req timestamp world jsonLoads beh).status_code = 200 ∧
    jsonGet (main env req timestamp world jsonLoads beh).body "status" =
      some (Json.str "error") ∧
    (main env req timestamp world jsonLoads beh).events = [] := by
  have hcont : pyContainsKey (Json.obj fields) "error" = Except.ok true := by
    simp [pyContainsKey, hmark]
  cases hfind : fields.find? (fun kv => kv.1 = "details") with
  | none =>
      refine ⟨?_, ?_, ?_⟩ <;>
        simp [main, henv, hcat, hc1, hc2, hsid, hsne, hfile, hai, hcont, pyDictGet,
          hfind, jsonGet]
  | some kv =>
      refine ⟨?_, ?_, ?_⟩ <;>
        simp [main, henv, hcat, hc1, hc2, hsid, hsne, hfile, hai, hcont, pyDictGet,
          hfind, jsonGet]

/-! ## C3: model-reported errors return 200/error and touch no storage -/

/-- C3: when the inference result carries the error marker (a top-level
`error` key in the returned dictionary), `main` answers HTTP 200 with
`status: error` and performs no storage write of any kind; in particular an
HTTP 503 from the inference endpoint produces this outcome with the raw
body text as the message. -/
theorem claim_C3_error_marker_no_storage :
    (∀ (env : List (String × String)) (req : Request) (timestamp : String)
        (world : Payload → PostResult) (jsonLoads : String → Option Json)
        (beh : StorageBehavior) (category store_id : String) (f : FilePart)
        (fields : List (String × Json)),
      adls_env_ok env = true →
      pyGet req.params "category" = some category →
      category ≠ "" →
      CATEGORY_PROMPTS.any (fun kv => kv.1 = category) = true →
      pyGet req.params "store_id" = some store_id →
      store_id ≠ "" →
      pyGetFile req.files "file" = some f →
      run_moondream_inference world jsonLoads (mainPrompt category) f.content =
        Json.obj fields →
      fields.any (fun kv => kv.1 = "error") = true →
      (main env req timestamp world jsonLoads beh).status_code = 200 ∧
      jsonGet (main env req timestamp world jsonLoads beh).body "status" =
        some (Json.str "error") ∧
      (main env req timestamp world jsonLoads beh).events = []) ∧
    (∀ (env : List (String × String)) (req : Request) (timestamp text : String)
        (body : Except String Json) (jsonLoads : String → Option Json)
        (beh : StorageBehavior) (category store_id : String) (f : FilePart),
      adls_env_ok env = true →
      pyGet req.params "category" = some category →
      category ≠ "" →
      CATEGORY_PROMPTS.any (fun kv => kv.1 = category) = true →
      pyGet req.params "store_id" = some store_id →
      store_id ≠ "" →
      pyGetFile req.files "file" = some f →
      (main env req timestamp (fun _ => PostResult.response 503 text body)
          jsonLoads beh).status_code = 200 ∧
      jsonGet (main env req timestamp (fun _ => PostResult.response 503 text body)
          jsonLoads beh).body "status" = some (Json.str "error") ∧
      jsonGet (main env req timestamp (fun _ => PostResult.response 503 text body)
          jsonLoads beh).body "message" = some (Json.str text) ∧
      (main env req timestamp (fun _ => PostResult.response 503 text body)
          jsonLoads beh).events = []) := by
  constructor
  · intro env req timestamp world jsonLoads beh category store_id f fields
      henv hcat hc1 hc2 hsid hsne hfile hai hmark
    exact main_marker_outcome henv hcat hc1 hc2 hsid hsne hfile hai hmark
  · intro env req timestamp text body jsonLoads beh category store_id f
      henv hcat hc1 hc2 hsid hsne hfile
    have hai : run_moondream_inference (fun _ => PostResult.response 503 text body)
        jsonLoads (mainPrompt category) f.content =
        Json.obj [("error", Json.str "ollama_error"), ("details", Json.str text)] := by
      simp [run_moondream_inference]
    have hcont : pyContainsKey
        (Json.obj [("error", Json.str "ollama_error"), ("details", Json.str text)])
        "error" = Except.ok true := by simp [pyContainsKey]
    refine ⟨?_, ?_, ?_, ?_⟩ <;>
      simp [main, henv, hcat, hc1, hc2, hsid, hsne, hfile, hai, hcont, pyDictGet, jsonGet]

/-- Witness for C3 (via the 503 clause, on a concrete request). -/
theorem claim_C3_error_marker_no_storage_witness :
    (main [("ADLS_CONNECTION_STRING", "cs"), ("ADLS_CONTAINER_NAME", "pazo")]
        ⟨[("category", "dustbin"), ("store_id", "SM-001")],
         [("file", ⟨"photo.jpg", [1, 2, 3]⟩)]⟩ "20240115_101500"
        (fun _ => PostResult.response 503 "Service Unavailable" (Except.error "nj"))
        (fun _ => none) ⟨Except.ok (), Except.ok (), Except.ok ()⟩).status_code = 200 ∧
    jsonGet (main [("ADLS_CONNECTION_STRING", "cs"), ("ADLS_CONTAINER_NAME", "pazo")]
        ⟨[("category", "dustbin"), ("store_id", "SM-001")],
         [("file", ⟨"photo.jpg", [1, 2, 3]⟩)]⟩ "20240115_101500"
        (fun _ => PostResult.response 503 "Service Unavailable" (Except.error "nj"))
        (fun _ => none) ⟨Except.ok (), Except.ok (), Except.ok ()⟩).body "status" =
      some (Json.str "error") ∧
    jsonGet (main [("ADLS_CONNECTION_STRING", "cs"), ("ADLS_CONTAINER_NAME", "pazo")]
        ⟨[("category", "dustbin"), ("store_id", "SM-001")],
         [("file", ⟨"photo.jpg", [1, 2, 3]⟩)]⟩ "20240115_101500"
        (fun _ => PostResult.response 503 "Service Unavailable" (Except.error "nj"))
        (fun _ => none) ⟨Except.ok (), Except.ok (), Except.ok ()⟩).body "message" =
      some (Json.str "Service Unavailable") ∧
    (main [("ADLS_CONNECTION_STRING", "cs"), ("ADLS_CONTAINER_NAME", "pazo")]
        ⟨[("category", "dustbin"), ("store_id", "SM-001")],
         [("file", ⟨"photo.jpg", [1, 2, 3]⟩)]⟩ "20240115_101500"
        (fun _ => PostResult.response 503 "Service Unavailable" (Except.error "nj"))
        (fun _ => none) ⟨Except.ok (), Except.ok (), Except.ok ()⟩).events = [] :=
  claim_C3_error_marker_no_storage.2
    [("ADLS_CONNECTION_STRING", "cs"), ("ADLS_CONTAINER_NAME", "pazo")]
    ⟨[("category", "dustbin"), ("store_id", "SM-001")],
     [("file", ⟨"photo.jpg", [1, 2, 3]⟩)]⟩ "20240115_101500" "Service Unavailable"
    (Except.error "nj") (fun _ => none) ⟨Except.ok (), Except.ok (), Except.ok ()⟩
    "dustbin" "SM-001" ⟨"photo.jpg", [1, 2, 3]⟩
    (by rfl) (by rfl) (by decide) (by rfl) (by rfl) (by decide) (by rfl)

/-! ## C8: a genuinely parsed result with a top-level `error` key is
treated as an inference failure -/

/-- C8: the error marker is merely the presence of a top-level `error` key;
a reply that parses successfully as JSON but whose parsed object contains a
top-level `error` key is handled as a failure — 200 with `status: error`
and no storage write — although the classification produced a genuine
parsed result. -/
theorem claim_C8_error_key_in_parsed_result
    (env : List (String × String)) (req : Request) (timestamp text s : String)
    (world : Payload → PostResult) (jsonLoads : String → Option Json)
    (beh : StorageBehavior) (category store_id : String) (f : FilePart)
    (data : Json) (pfields : List (String × Json))
    (henv : adls_env_ok env = true)
    (hcat : pyGet req.params "category" = some category)
    (hc1 : category ≠ "")
    (hc2 : CATEGORY_PROMPTS.any (fun kv => kv.1 = category) = true)
    (hsid : pyGet req.params "store_id" = some store_id)
    (hsne : store_id ≠ "")
    (hfile : pyGetFile req.files "file" = some f)
    (hWorld : world = fun _ => PostResult.response 200 text (Except.ok data))
    (hmem : pyContainsKey data "response" = Except.ok true)
    (hsub : pySubscript data "response" = Except.ok (Json.str s))
    (hload : jsonLoads s = some (Json.obj pfields))
    (hkey : pfields.any (fun kv => kv.1 = "error") = true) :
    run_moondream_inference world jsonLoads (mainPrompt category) f.content =
      Json.obj pfields ∧
    (main env req timestamp world jsonLoads beh).status_code = 200 ∧
    jsonGet (main env req timestamp world jsonLoads beh).body "status" =
      some (Json.str "error") ∧
    (main env req timestamp world jsonLoads beh).events = [] := by
  have hai : run_moondream_inference world jsonLoads (mainPrompt category) f.content =
      Json.obj pfields := by
    simp [run_moondream_inference, hWorld, hmem, hsub, hload]
  exact ⟨hai, main_marker_outcome henv hcat hc1 hc2 hsid hsne hfile hai hkey⟩

/-- Witness for C8: the model replies `{"error": "model failed"}` (valid
JSON), yet the handler reports an error and writes nothing. -/
theorem claim_C8_error_key_in_parsed_result_witness :
    run_moondream_inference
      (fun _ => PostResult.response 200 "t"
        (Except.ok (Json.obj [("response", Json.str "\x7b\"error\":\"model failed\"\x7d")])))
      (fun q => if q = "\x7b\"error\":\"model failed\"\x7d" then
        some (Json.obj [("error", Json.str "model failed")]) else none)
      (mainPrompt "dustbin") (FilePart.mk "photo.jpg" [1, 2, 3]).content =
      Json.obj [("error", Json.str "model failed")] ∧
    (main [("ADLS_CONNECTION_STRING", "cs"), ("ADLS_CONTAINER_NAME", "pazo")]
        ⟨[("category", "dustbin"), ("store_id", "SM-001")],
         [("file", ⟨"photo.jpg", [1, 2, 3]⟩)]⟩ "20240115_101500"
        (fun _ => PostResult.response 200 "t"
          (Except.ok (Json.obj [("response", Json.str "\x7b\"error\":\"model failed\"\x7d")])))
        (fun q => if q = "\x7b\"error\":\"model failed\"\x7d" then
          some (Json.obj [("error", Json.str "model failed")]) else none)
        ⟨Except.ok (), Except.ok (), Except.ok ()⟩).status_code = 200 ∧
    jsonGet (main [("ADLS_CONNECTION_STRING", "cs"), ("ADLS_CONTAINER_NAME", "pazo")]
        ⟨[("category", "dustbin"), ("store_id", "SM-001")],
         [("file", ⟨"photo.jpg", [1, 2, 3]⟩)]⟩ "20240115_101500"
        (fun _ => PostResult.response 200 "t"
          (Except.ok (Json.obj [("response", Json.str "\x7b\"error\":\"model failed\"\x7d")])))
        (fun q => if q = "\x7b\"error\":\"model failed\"\x7d" then
          some (Json.obj [("error", Json.str "model failed")]) else none)
        ⟨Except.ok (), Except.ok (), Except.ok ()⟩).body "status" =
      some (Json.str "error") ∧
    (main [("ADLS_CONNECTION_STRING", "cs"), ("ADLS_CONTAINER_NAME", "pazo")]
        ⟨[("category", "dustbin"), ("store_id", "SM-001")],
         [("file", ⟨"photo.jpg", [1, 2, 3]⟩)]⟩ "20240115_101500"
        (fun _ => PostResult.response 200 "t"
          (Except.ok (Json.obj [("response", Json.str "\x7b\"error\":\"model failed\"\x7d")])))
        (fun q => if q = "\x7b\"error\":\"model failed\"\x7d" then
          some (Json.obj [("error", Json.str "model failed")]) else none)
        ⟨Except.ok (), Except.ok (), Except.ok ()⟩).events = [] :=
  claim_C8_error_key_in_parsed_result
    [("ADLS_CONNECTION_STRING", "cs"), ("ADLS_CONTAINER_NAME", "pazo")]
    ⟨[("category", "dustbin"), ("store_id", "SM-001")],
     [("file", ⟨"photo.jpg", [1, 2, 3]⟩)]⟩ "20240115_101500" "t"
    "\x7b\"error\":\"model failed\"\x7d"
    (fun _ => PostResult.response 200 "t"
      (Except.ok (Json.obj [("response", Json.str "\x7b\"error\":\"model failed\"\x7d")])))
    (fun q => if q = "\x7b\"error\":\"model failed\"\x7d" then
      some (Json.obj [("error", Json.str "model failed")]) else none)
    ⟨Except.ok (), Except.ok (), Except.ok ()⟩ "dustbin" "SM-001"
    ⟨"photo.jpg", [1, 2, 3]⟩
    (Json.obj [("response", Json.str "\x7b\"error\":\"model failed\"\x7d")])
    [("error", Json.str "model failed")]
    (by rfl) (by rfl) (by decide) (by rfl) (by rfl) (by decide) (by rfl)
    (by rfl) (by rfl) (by rfl) (by rfl) (by rfl)



/-! ## C5, C6, C9: storage-failure policies -/

/-- C6: a failing primary JSON upload propagates to the top-level catch-all:
`main` answers HTTP 500 with `status: error` and the propagated exception
message; no success is reported and only the failed attempt happened. -/
theorem claim_C6_primary_upload_failure_500
    (env : List (String × String)) (req : Request) (timestamp : String)
    (world : Payload → PostResult) (jsonLoads : String → Option Json)
    (beh : StorageBehavior) (category store_id e : String) (f : FilePart)
    (fields : List (String × Json))
    (henv : adls_env_ok env = true)
    (hcat : pyGet req.params "category" = some category)
    (hc1 : category ≠ "")
    (hc2 : CATEGORY_PROMPTS.any (fun kv => kv.1 = category) = true)
    (hsid : pyGet req.params "store_id" = some store_id)
    (hsne : store_id ≠ "")
    (hfile : pyGetFile req.files "file" = some f)
    (hai : run_moondream_inference world jsonLoads (mainPrompt category) f.content =
      Json.obj fields)
    (hnomark : fields.any (fun kv => kv.1 = "error") = false)
    (hjson : beh.jsonUpload = Except.error e) :
    main env req timestamp world jsonLoads beh =
      ⟨500, errBody ("Failed to upload JSON to ADLS: " ++ e),
        [StorageEvent.jsonAttempt]⟩ := by
  obtain ⟨s, hs⟩ := get_service_client_ok_of_env_ok henv
  have hcont : pyContainsKey (Json.obj fields) "error" = Except.ok false := by
    simp [pyContainsKey, hnomark]
  have hup : upload_json_to_adls env beh (Json.obj fields) category timestamp store_id =
      (Except.error ("Failed to upload JSON to ADLS: " ++ e),
       [StorageEvent.jsonAttempt]) := by
    simp [upload_json_to_adls, hs, hjson]
  simp [main, henv, hcat, hc1, hc2, hsid, hsne, hfile, hai, hcont, hup]

/-- Witness for C6 at a concrete request with a failing storage backend. -/
theorem claim_C6_primary_upload_failure_500_witness :
    main [("ADLS_CONNECTION_STRING", "cs"), ("ADLS_CONTAINER_NAME", "pazo")]
      ⟨[("category", "dustbin"), ("store_id", "SM-001")],
       [("file", ⟨"photo.jpg", [1, 2, 3]⟩)]⟩ "20240115_101500"
      (fun _ => PostResult.response 200 "t"
        (Except.ok (Json.obj [("response", Json.str "\x7b\"status\":\"pass\"\x7d")])))
      (fun q => if q = "\x7b\"status\":\"pass\"\x7d" then
        some (Json.obj [("status", Json.str "pass")]) else none)
      ⟨Except.error "socket closed", Except.ok (), Except.ok ()⟩ =
    ⟨500, errBody "Failed to upload JSON to ADLS: socket closed",
      [StorageEvent.jsonAttempt]⟩ :=
  claim_C6_primary_upload_failure_500
    [("ADLS_CONNECTION_STRING", "cs"), ("ADLS_CONTAINER_NAME", "pazo")]
    ⟨[("category", "dustbin"), ("store_id", "SM-001")],
     [("file", ⟨"photo.jpg", [1, 2, 3]⟩)]⟩ "20240115_101500"
    (fun _ => PostResult.response 200 "t"
      (Except.ok (Json.obj [("response", Json.str "\x7b\"status\":\"pass\"\x7d")])))
    (fun q => if q = "\x7b\"status\":\"pass\"\x7d" then
      some (Json.obj [("status", Json.str "pass")]) else none)
    ⟨Except.error "socket closed", Except.ok (), Except.ok ()⟩
    "dustbin" "SM-001" "socket closed" ⟨"photo.jpg", [1, 2, 3]⟩
    [("status", Json.str "pass")]
    (by rfl) (by rfl) (by decide) (by rfl) (by rfl) (by decide) (by rfl)
    (by rfl) (by rfl) (by rfl)

/-- C5: when the secondary raw-image/base64 upload raises, the exception is
swallowed: the response is still HTTP 200 with `status: success`, both
`adls_path_raw_image` and `adls_path_base64` are the placeholder `failed`,
and the primary JSON result path is still reported. -/
theorem claim_C5_secondary_upload_failure_swallowed
    (env : List (String × String)) (req : Request) (timestamp : String)
    (world : Payload → PostResult) (jsonLoads : String → Option Json)
    (beh : StorageBehavior) (category store_id : String) (f : FilePart)
    (fields : List (String × Json))
    (henv : adls_env_ok env = true)
    (hcat : pyGet req.params "category" = some category)
    (hc1 : category ≠ "")
    (hc2 : CATEGORY_PROMPTS.any (fun kv => kv.1 = category) = true)
    (hsid : pyGet req.params "store_id" = some store_id)
    (hsne : store_id ≠ "")
    (hfile : pyGetFile req.files "file" = some f)
    (hai : run_moondream_inference world jsonLoads (mainPrompt category) f.content =
      Json.obj fields)
    (hnomark : fields.any (fun kv => kv.1 = "error") = false)
    (hjson : beh.jsonUpload = Except.ok ())
    (hfail : (∃ e, beh.rawUpload = Except.error e) ∨
      (∃ e, beh.b64Upload = Except.error e)) :
    (main env req timestamp world jsonLoads beh).status_code = 200 ∧
    jsonGet (main env req timestamp world jsonLoads beh).body "status" =
      some (Json.str "success") ∧
    jsonGet (main env req timestamp world jsonLoads beh).body "adls_path_raw_image" =
      some (Json.str "failed") ∧
    jsonGet (main env req timestamp world jsonLoads beh).body "adls_path_base64" =
      some (Json.str "failed") ∧
    jsonGet (main env req timestamp world jsonLoads beh).body "adls_path_json" =
      some (Json.str (json_result_path category timestamp store_id)) := by
  obtain ⟨s, hs⟩ := get_service_client_ok_of_env_ok henv
  have hcont : pyContainsKey (Json.obj fields) "error" = Except.ok false := by
    simp [pyContainsKey, hnomark]
  have hup : upload_json_to_adls env beh (Json.obj fields) category timestamp store_id =
      (Except.ok (json_result_path category timestamp store_id),
       [StorageEvent.jsonAttempt,
        StorageEvent.jsonWritten (json_result_path category timestamp store_id)]) := by
    simp [upload_json_to_adls, hs, hjson]
  have hsave : ∃ e evs,
      save_image_and_base64 env beh f.content (b64encode f.content) category store_id
        f.filename timestamp = (Except.error e, evs) := by
    rcases hfail with ⟨e, hraw⟩ | ⟨e, hb64⟩
    · exact ⟨"Failed to upload raw image to ADLS: " ++ e, [StorageEvent.rawAttempt], by
        simp [save_image_and_base64, upload_image_to_adls, hs, hraw]⟩
    · cases hrawv : beh.rawUpload with
      | error e2 =>
          exact ⟨"Failed to upload raw image to ADLS: " ++ e2, [StorageEvent.rawAttempt], by
            simp [save_image_and_base64, upload_image_to_adls, hs, hrawv]⟩
      | ok u =>
          exact ⟨"Failed to upload base64 to ADLS: " ++ e,
            [StorageEvent.rawAttempt,
             StorageEvent.rawWritten (raw_image_path category store_id f.filename timestamp),
             StorageEvent.b64Attempt], by
            simp [save_image_and_base64, upload_image_to_adls, upload_base64_to_adls,
              hs, hrawv, hb64]⟩
  obtain ⟨e, evs, hsv⟩ := hsave
  refine ⟨?_, ?_, ?_, ?_, ?_⟩ <;>
    simp [main, henv, hcat, hc1, hc2, hsid, hsne, hfile, hai, hcont, hup, hsv, jsonGet]

/-- Witness for C5: base64 upload fails, yet the request succeeds with both
secondary path fields set to `failed`. -/
theorem claim_C5_secondary_upload_failure_swallowed_witness :
    (main [("ADLS_CONNECTION_STRING", "cs"), ("ADLS_CONTAINER_NAME", "pazo")]
        ⟨[("category", "dustbin"), ("store_id", "SM-001")],
         [("file", ⟨"photo.jpg", [1, 2, 3]⟩)]⟩ "20240115_101500"
        (fun _ => PostResult.response 200 "t"
          (Except.ok (Json.obj [("response", Json.str "\x7b\"status\":\"pass\"\x7d")])))
        (fun q => if q = "\x7b\"status\":\"pass\"\x7d" then
          some (Json.obj [("status", Json.str "pass")]) else none)
        ⟨Except.ok (), Except.ok (), Except.error "boom"⟩).status_code = 200 ∧
    jsonGet (main [("ADLS_CONNECTION_STRING", "cs"), ("ADLS_CONTAINER_NAME", "pazo")]
        ⟨[("category", "dustbin"), ("store_id", "SM-001")],
         [("file", ⟨"photo.jpg", [1, 2, 3]⟩)]⟩ "20240115_101500"
        (fun _ => PostResult.response 200 "t"
          (Except.ok (Json.obj [("response", Json.str "\x7b\"status\":\"pass\"\x7d")])))
        (fun q => if q = "\x7b\"status\":\"pass\"\x7d" then
          some (Json.obj [("status", Json.str "pass")]) else none)
        ⟨Except.ok (), Except.ok (), Except.error "boom"⟩).body "status" =
      some (Json.str "success") ∧
    jsonGet (main [("ADLS_CONNECTION_STRING", "cs"), ("ADLS_CONTAINER_NAME", "pazo")]
        ⟨[("category", "dustbin"), ("store_id", "SM-001")],
         [("file", ⟨"photo.jpg", [1, 2, 3]⟩)]⟩ "20240115_101500"
        (fun _ => PostResult.response 200 "t"
          (Except.ok (Json.obj [("response", Json.str "\x7b\"status\":\"pass\"\x7d")])))
        (fun q => if q = "\x7b\"status\":\"pass\"\x7d" then
          some (Json.obj [("status", Json.str "pass")]) else none)
        ⟨Except.ok (), Except.ok (), Except.error "boom"⟩).body "adls_path_raw_image" =
      some (Json.str "failed") ∧
    jsonGet (main [("ADLS_CONNECTION_STRING", "cs"), ("ADLS_CONTAINER_NAME", "pazo")]
        ⟨[("category", "dustbin"), ("store_id", "SM-001")],
         [("file", ⟨"photo.jpg", [1, 2, 3]⟩)]⟩ "20240115_101500"
        (fun _ => PostResult.response 200 "t"
          (Except.ok (Json.obj [("response", Json.str "\x7b\"status\":\"pass\"\x7d")])))
        (fun q => if q = "\x7b\"status\":\"pass\"\x7d" then
          some (Json.obj [("status", Json.str "pass")]) else none)
        ⟨Except.ok (), Except.ok (), Except.error "boom"⟩).body "adls_path_base64" =
      some (Json.str "failed") ∧
    jsonGet (main [("ADLS_CONNECTION_STRING", "cs"), ("ADLS_CONTAINER_NAME", "pazo")]
        ⟨[("category", "dustbin"), ("store_id", "SM-001")],
         [("file", ⟨"photo.jpg", [1, 2, 3]⟩)]⟩ "20240115_101500"
        (fun _ => PostResult.response 200 "t"
          (Except.ok (Json.obj [("response", Json.str "\x7b\"status\":\"pass\"\x7d")])))
        (fun q => if q = "\x7b\"status\":\"pass\"\x7d" then
          some (Json.obj [("status", Json.str "pass")]) else none)
        ⟨Except.ok (), Except.ok (), Except.error "boom"⟩).body "adls_path_json" =
      some (Json.str (json_result_path "dustbin" "20240115_101500" "SM-001")) :=
  claim_C5_secondary_upload_failure_swallowed
    [("ADLS_CONNECTION_STRING", "cs"), ("ADLS_CONTAINER_NAME", "pazo")]
    ⟨[("category", "dustbin"), ("store_id", "SM-001")],
     [("file", ⟨"photo.jpg", [1, 2, 3]⟩)]⟩ "20240115_101500"
    (fun _ => PostResult.response 200 "t"
      (Except.ok (Json.obj [("response", Json.str "\x7b\"status\":\"pass\"\x7d")])))
    (fun q => if q = "\x7b\"status\":\"pass\"\x7d" then
      some (Json.obj [("status", Json.str "pass")]) else none)
    ⟨Except.ok (), Except.ok (), Except.error "boom"⟩
    "dustbin" "SM-001" ⟨"photo.jpg", [1, 2, 3]⟩ [("status", Json.str "pass")]
    (by rfl) (by rfl) (by decide) (by rfl) (by rfl) (by decide) (by rfl)
    (by rfl) (by rfl) (by rfl) (Or.inr ⟨"boom", by rfl⟩)

/-- C9: the secondary upload is not atomic — the raw image is written
first; when the subsequent base64 upload fails, the raw object has already
been written (a `rawWritten` event is present), yet both response fields
report the placeholder `failed`. -/
theorem claim_C9_secondary_upload_not_atomic
    (env : List (String × String)) (req : Request) (timestamp : String)
    (world : Payload → PostResult) (jsonLoads : String → Option Json)
    (beh : StorageBehavior) (category store_id e : String) (f : FilePart)
    (fields : List (String × Json))
    (henv : adls_env_ok env = true)
    (hcat : pyGet req.params "category" = some category)
    (hc1 : category ≠ "")
    (hc2 : CATEGORY_PROMPTS.any (fun kv => kv.1 = category) = true)
    (hsid : pyGet req.params "store_id" = some store_id)
    (hsne : store_id ≠ "")
    (hfile : pyGetFile req.files "file" = some f)
    (hai : run_moondream_inference world jsonLoads (mainPrompt category) f.content =
      Json.obj fields)
    (hnomark : fields.any (fun kv => kv.1 = "error") = false)
    (hjson : beh.jsonUpload = Except.ok ())
    (hraw : beh.rawUpload = Except.ok ())
    (hb64 : beh.b64Upload = Except.error e) :
    (main env req timestamp world jsonLoads beh).events =
      [StorageEvent.jsonAttempt,
       StorageEvent.jsonWritten (json_result_path category timestamp store_id),
       StorageEvent.rawAttempt,
       StorageEvent.rawWritten (raw_image_path category store_id f.filename timestamp),
       StorageEvent.b64Attempt] ∧
    StorageEvent.rawWritten (raw_image_path category store_id f.filename timestamp) ∈
      (main env req timestamp world jsonLoads beh).events ∧
    jsonGet (main env req timestamp world jsonLoads beh).body "adls_path_raw_image" =
      some (Json.str "failed") ∧
    jsonGet (main env req timestamp world jsonLoads beh).body "adls_path_base64" =
      some (Json.str "failed") := by
  obtain ⟨s, hs⟩ := get_service_client_ok_of_env_ok henv
  have hcont : pyContainsKey (Json.obj fields) "error" = Except.ok false := by
    simp [pyContainsKey, hnomark]
  have hup : upload_json_to_adls env beh (Json.obj fields) category timestamp store_id =
      (Except.ok (json_result_path category timestamp store_id),
       [StorageEvent.jsonAttempt,
        StorageEvent.jsonWritten (json_result_path category timestamp store_id)]) := by
    simp [upload_json_to_adls, hs, hjson]
  have hsv : save_image_and_base64 env beh f.content (b64encode f.content) category
      store_id f.filename timestamp =
      (Except.error ("Failed to upload base64 to ADLS: " ++ e),
       [StorageEvent.rawAttempt,
        StorageEvent.rawWritten (raw_image_path category store_id f.filename timestamp),
        StorageEvent.b64Attempt]) := by
    simp [save_image_and_base64, upload_image_to_adls, upload_base64_to_adls,
      hs, hraw, hb64]
  refine ⟨?_, ?_, ?_, ?_⟩ <;>
    simp [main, henv, hcat, hc1, hc2, hsid, hsne, hfile, hai, hcont, hup, hsv, jsonGet]

/-- Witness for C9 at a concrete request. -/
theorem claim_C9_secondary_upload_not_atomic_witness :
    (main [("ADLS_CONNECTION_STRING", "cs"), ("ADLS_CONTAINER_NAME", "pazo")]
        ⟨[("category", "dustbin"), ("store_id", "SM-001")],
         [("file", ⟨"photo.jpg", [1, 2, 3]⟩)]⟩ "20240115_101500"
        (fun _ => PostResult.response 200 "t"
          (Except.ok (Json.obj [("response", Json.str "\x7b\"status\":\"pass\"\x7d")])))
        (fun q => if q = "\x7b\"status\":\"pass\"\x7d" then
          some (Json.obj [("status", Json.str "pass")]) else none)
        ⟨Except.ok (), Except.ok (), Except.error "boom"⟩).events =
      [StorageEvent.jsonAttempt,
       StorageEvent.jsonWritten (json_result_path "dustbin" "20240115_101500" "SM-001"),
       StorageEvent.rawAttempt,
       StorageEvent.rawWritten
         (raw_image_path "dustbin" "SM-001" "photo.jpg" "20240115_101500"),
       StorageEvent.b64Attempt] ∧
    StorageEvent.rawWritten
        (raw_image_path "dustbin" "SM-001" "photo.jpg" "20240115_101500") ∈
      (main [("ADLS_CONNECTION_STRING", "cs"), ("ADLS_CONTAINER_NAME", "pazo")]
        ⟨[("category", "dustbin"), ("store_id", "SM-001")],
         [("file", ⟨"photo.jpg", [1, 2, 3]⟩)]⟩ "20240115_101500"
        (fun _ => PostResult.response 200 "t"
          (Except.ok (Json.obj [("response", Json.str "\x7b\"status\":\"pass\"\x7d")])))
        (fun q => if q = "\x7b\"status\":\"pass\"\x7d" then
          some (Json.obj [("status", Json.str "pass")]) else none)
        ⟨Except.ok (), Except.ok (), Except.error "boom"⟩).events ∧
    jsonGet (main [("ADLS_CONNECTION_STRING", "cs"), ("ADLS_CONTAINER_NAME", "pazo")]
        ⟨[("category", "dustbin"), ("store_id", "SM-001")],
         [("file", ⟨"photo.jpg", [1, 2, 3]⟩)]⟩ "20240115_101500"
        (fun _ => PostResult.response 200 "t"
          (Except.ok (Json.obj [("response", Json.str "\x7b\"status\":\"pass\"\x7d")])))
        (fun q => if q = "\x7b\"status\":\"pass\"\x7d" then
          some (Json.obj [("status", Json.str "pass")]) else none)
        ⟨Except.ok (), Except.ok (), Except.error "boom"⟩).body "adls_path_raw_image" =
      some (Json.str "failed") ∧
    jsonGet (main [("ADLS_CONNECTION_STRING", "cs"), ("ADLS_CONTAINER_NAME", "pazo")]
        ⟨[("category", "dustbin"), ("store_id", "SM-001")],
         [("file", ⟨"photo.jpg", [1, 2, 3]⟩)]⟩ "20240115_101500"
        (fun _ => PostResult.response 200 "t"
          (Except.ok (Json.obj [("response", Json.str "\x7b\"status\":\"pass\"\x7d")])))
        (fun q => if q = "\x7b\"status\":\"pass\"\x7d" then
          some (Json.obj [("status", Json.str "pass")]) else none)
        ⟨Except.ok (), Except.ok (), Except.error "boom"⟩).body "adls_path_base64" =
      some (Json.str "failed") :=
  claim_C9_secondary_upload_not_atomic
    [("ADLS_CONNECTION_STRING", "cs"), ("ADLS_CONTAINER_NAME", "pazo")]
    ⟨[("category", "dustbin"), ("store_id", "SM-001")],
     [("file", ⟨"photo.jpg", [1, 2, 3]⟩)]⟩ "20240115_101500"
    (fun _ => PostResult.response 200 "t"
      (Except.ok (Json.obj [("response", Json.str "\x7b\"status\":\"pass\"\x7d")])))
    (fun q => if q = "\x7b\"status\":\"pass\"\x7d" then
      some (Json.obj [("status", Json.str "pass")]) else none)
    ⟨Except.ok (), Except.ok (), Except.error "boom"⟩
    "dustbin" "SM-001" "boom" ⟨"photo.jpg", [1, 2, 3]⟩ [("status", Json.str "pass")]
    (by rfl) (by rfl) (by decide) (by rfl) (by rfl) (by decide) (by rfl)
    (by rfl) (by rfl) (by rfl) (by rfl) (by rfl)



/-! ## C10: quote trimming affects only the local validation copy -/

lemma dropWhile_eq_self_of_head? {p : Char → Bool} {l : List Char}
    (h : ∀ c, l.head? = some c → p c = false) : l.dropWhile p = l := by
  cases l with
  | nil => rfl
  | cons x xs =>
      rw [List.dropWhile_cons, h x rfl]
      simp

lemma pyStripQuotes_wrapped (core : String) (hne : core ≠ "")
    (hh : core.data.head? ≠ some '\"') (hl : core.data.getLast? ≠ some '\"') :
    pyStripQuotes ("\"" ++ core ++ "\"") = core := by
  have hq : ("\"" : String).data = ['\"'] := rfl
  have hcne : core.data ≠ [] := fun h => hne ((string_eq_empty_iff core).mpr h)
  have hdata : ("\"" ++ core ++ "\"").data = '\"' :: (core.data ++ ['\"']) := by
    rw [String.data_append, String.data_append, hq]
    simp
  unfold pyStripQuotes
  rw [hdata]
  rw [show List.dropWhile (fun c => c = '\"') ('\"' :: (core.data ++ ['\"'])) =
      List.dropWhile (fun c => c = '\"') (core.data ++ ['\"']) by
    rw [List.dropWhile_cons]
    simp]
  rw [dropWhile_eq_self_of_head? (l := core.data ++ ['\"']) (fun c hc => by
    rw [List.head?_append_of_ne_nil _ hcne] at hc
    simp only [decide_eq_false_iff_not]
    intro hcq
    exact hh (by rw [hc, hcq]))]
  rw [List.reverse_append]
  rw [show (['\"'] : List Char).reverse = ['\"'] by rfl]
  rw [show (['\"'] : List Char) ++ core.data.reverse = '\"' :: core.data.reverse by rfl]
  rw [List.dropWhile_cons]
  rw [if_pos (by simp)]
  rw [dropWhile_eq_self_of_head? (l := core.data.reverse) (fun c hc => by
    rw [List.head?_reverse] at hc
    simp only [decide_eq_false_iff_not]
    intro hcq
    exact hl (by rw [hc, hcq]))]
  rw [List.reverse_reverse]

/-- C10: `main` strips surrounding double quotes only from its local copy
of the connection string; the storage layer reads the variable separately
without trimming, so whenever the value is wrapped in quotes the
validation passes on the trimmed copy while the storage client is built
from the still-quoted value, which differs from the trimmed one. -/
theorem claim_C10_quote_trim_local_only
    (env : List (String × String)) (core container : String)
    (hconn : getenv env "ADLS_CONNECTION_STRING" = some ("\"" ++ core ++ "\""))
    (hcore_ne : core ≠ "")
    (hcore_head : core.data.head? ≠ some '\"')
    (hcore_last : core.data.getLast? ≠ some '\"')
    (hcont : getenv env "ADLS_CONTAINER_NAME" = some container)
    (hcont_ne : container ≠ "") :
    adls_conn_local env = some core ∧
    adls_env_ok env = true ∧
    get_service_client env = Except.ok ("\"" ++ core ++ "\"") ∧
    "\"" ++ core ++ "\"" ≠ core := by
  have hq : ("\"" : String).data = ['\"'] := rfl
  have hcne : core.data ≠ [] := fun h => hcore_ne ((string_eq_empty_iff core).mpr h)
  have hdata : ("\"" ++ core ++ "\"").data = '\"' :: (core.data ++ ['\"']) := by
    rw [String.data_append, String.data_append, hq]
    simp
  have hvne : ("\"" ++ core ++ "\"" : String) ≠ "" := by
    intro h
    have h2 := congrArg String.data h
    rw [hdata] at h2
    simp at h2
  have hvhead : ("\"" ++ core ++ "\"").data.head? = some '\"' := by
    rw [hdata]
    rfl
  have hvlast : ("\"" ++ core ++ "\"").data.getLast? = some '\"' := by
    rw [hdata, show ('\"' :: (core.data ++ ['\"'])) = (('\"' :: core.data) ++ ['\"']) by simp,
      List.getLast?_append_of_ne_nil _ (by simp)]
    rfl
  have hlocal : adls_conn_local env = some core := by
    have hvhead2 : ('\"' :: (core.data ++ ['\"'])).head? = some '\"' := rfl
    have hvlast2 : ('\"' :: (core.data ++ ['\"'])).getLast? = some '\"' := by
      rw [← hdata]
      exact hvlast
    simp [adls_conn_local, hconn, hvne, hvhead, hvlast, hvhead2, hvlast2,
      pyStripQuotes_wrapped core hcore_ne hcore_head hcore_last]
  have hneq : ("\"" ++ core ++ "\"" : String) ≠ core := by
    intro h
    have h2 : ("\"" ++ core ++ "\"").data = core.data := congrArg String.data h
    rw [hdata] at h2
    have h3 := congrArg List.length h2
    simp only [List.length_cons, List.length_append] at h3
    omega
  refine ⟨hlocal, ?_, ?_, hneq⟩
  · simp [adls_env_ok, hlocal, hcont, truthyOpt, hcore_ne, hcont_ne]
  · simp [get_service_client, ADLS_CONNECTION_STRING, hconn, hvne]

/-- Witness for C10: connection string `"UseDevelopmentStorage=true"`
wrapped in literal quotes. -/
theorem claim_C10_quote_trim_local_only_witness :
    adls_conn_local
        [("ADLS_CONNECTION_STRING", "\"UseDevelopmentStorage=true\""),
         ("ADLS_CONTAINER_NAME", "pazo")] = some "UseDevelopmentStorage=true" ∧
    adls_env_ok
        [("ADLS_CONNECTION_STRING", "\"UseDevelopmentStorage=true\""),
         ("ADLS_CONTAINER_NAME", "pazo")] = true ∧
    get_service_client
        [("ADLS_CONNECTION_STRING", "\"UseDevelopmentStorage=true\""),
         ("ADLS_CONTAINER_NAME", "pazo")] =
      Except.ok ("\"" ++ "UseDevelopmentStorage=true" ++ "\"") ∧
    "\"" ++ "UseDevelopmentStorage=true" ++ "\"" ≠ "UseDevelopmentStorage=true" :=
  claim_C10_quote_trim_local_only
    [("ADLS_CONNECTION_STRING", "\"UseDevelopmentStorage=true\""),
     ("ADLS_CONTAINER_NAME", "pazo")]
    "UseDevelopmentStorage=true" "pazo"
    (by decide) (by decide) (by decide) (by decide) (by decide) (by decide)


end PazoUpload
